import Mathlib

/-!
Verification of the SPOP agent (haproxy-telemetry): a shallow embedding of
the wire codec (`src/frame.rs`), the connection loop (`src/main.rs`) and the
span/notify dispatcher (`src/otel.rs`), together with theorems settling the
specification claims about them.

Conventions of the embedding:
* Rust byte buffers are `List Nat` (each element a byte value `< 256`);
  readers take the buffer and return the parsed value plus the unconsumed
  suffix, writers return the bytes they append to the destination buffer.
* Machine integers are `Nat` (unsigned) or `Int` (signed) with explicit
  `% 2 ^ w` where the Rust code wraps or reinterprets.
* A Rust `panic!` (e.g. `.unwrap()` on an error, or a `bytes` crate read past
  the end of the cursor) is the `crash` outcome of the result type below.
-/

namespace Spoa

/-- Result of a fallible Rust parser over a cursor: a value plus the remaining
bytes, an error value, or a panic (`crash`). -/
inductive PRes (ε : Type) (α : Type) where
  | ok : α → List Nat → PRes ε α
  | err : ε → PRes ε α
  | crash : PRes ε α
deriving DecidableEq, Repr

/-! ### Varint codec (`src/frame.rs`, `write_varint` / `parse_varint`) -/

/-- `frame.rs` `VarintError`. -/
inductive VarintError where
  | insufficientBytes
deriving DecidableEq, Repr

/-- The `while value >= 128` loop of `write_varint`, followed by the final
single-byte emit.  Each emitted byte is `(value % 256) | 128`, matching the
source's `put_u8((value % 256 | 128) as u8)`. -/
def encodeLoop (value : Nat) : List Nat :=
  if _h : 128 ≤ value then
    ((value % 256) ||| 128) :: encodeLoop ((value - 128) >>> 7)
  else
    [value]
termination_by value
decreasing_by
  rw [Nat.shiftRight_eq_div_pow]
  exact Nat.lt_of_le_of_lt (Nat.div_le_self _ _)
    (Nat.sub_lt (by omega) (by omega))

/-- `write_varint` (frame.rs:739-756): values below 240 are one byte; larger
values start with `(value % 256) | 240` and continue with `encodeLoop` on
`(value - 240) >> 4`.  (The `as u8` casts are lossless here: both `| 240` and
`| 128` results are below 256.) -/
def writeVarint (value : Nat) : List Nat :=
  if value < 240 then
    [value]
  else
    ((value % 256) ||| 240) :: encodeLoop ((value - 240) >>> 4)

/-- The accumulation loop of `parse_varint`: `res += (b as u64) << bit_offset`
with `bit_offset` growing by 7, stopping at the first byte `< 128`.  The
`% 2 ^ 64` models the `u64` accumulator (for the inputs produced by
`write_varint` the sum never overflows, and the shift stays below 64, so the
debug- and release-mode behaviours of the source coincide with this model). -/
def decodeLoop (res off : Nat) : List Nat → PRes VarintError Nat
  | [] => .err .insufficientBytes
  | b :: rest =>
    if b < 128 then .ok ((res + (b <<< off)) % 2 ^ 64) rest
    else decodeLoop ((res + (b <<< off)) % 2 ^ 64) (off + 7) rest

/-- `parse_varint` (frame.rs:716-737). -/
def parseVarint : List Nat → PRes VarintError Nat
  | [] => .err .insufficientBytes
  | b :: rest =>
    if 240 ≤ b then decodeLoop b 4 rest else .ok b rest

set_option maxRecDepth 4000 in
/-- Bitwise fact used to read off the low bits of a continuation byte. -/
lemma or128_eq : ∀ x < 256, x ||| 128 = 128 + x % 128 := by decide

set_option maxRecDepth 4000 in
/-- Bitwise fact used to read off the low bits of the first byte. -/
lemma or240_eq : ∀ x < 256, x ||| 240 = 240 + x % 16 := by decide

lemma encode_byte_eq (value : Nat) :
    (value % 256) ||| 128 = 128 + value % 128 := by
  rw [or128_eq _ (Nat.mod_lt _ (by norm_num)),
    Nat.mod_mod_of_dvd _ (by norm_num : (128 : Nat) ∣ 256)]

lemma first_byte_eq (value : Nat) :
    (value % 256) ||| 240 = 240 + value % 16 := by
  rw [or240_eq _ (Nat.mod_lt _ (by norm_num)),
    Nat.mod_mod_of_dvd _ (by norm_num : (16 : Nat) ∣ 256)]

/-- Decoding the bytes of `encodeLoop value` from accumulator `res` at shift
`off` adds exactly `value * 2 ^ off`, consuming nothing else. -/
lemma decodeLoop_encodeLoop (value : Nat) : ∀ res off rest,
    res + value * 2 ^ off < 2 ^ 64 →
    decodeLoop res off (encodeLoop value ++ rest) =
      .ok (res + value * 2 ^ off) rest := by
  induction value using Nat.strong_induction_on with
  | _ value ih =>
    intro res off rest hlt
    by_cases h128 : 128 ≤ value
    · rw [encodeLoop.eq_def, dif_pos h128, List.cons_append]
      simp only [decodeLoop]
      rw [if_neg (by rw [encode_byte_eq]; omega)]
      have hbyte : ((value % 256) ||| 128) <<< off = (128 + value % 128) * 2 ^ off := by
        rw [encode_byte_eq, Nat.shiftLeft_eq]
      have hsm : 128 + value % 128 ≤ value := by omega
      have hmod : (res + (128 + value % 128) * 2 ^ off) % 2 ^ 64 =
          res + (128 + value % 128) * 2 ^ off :=
        Nat.mod_eq_of_lt (Nat.lt_of_le_of_lt
          (Nat.add_le_add_left (Nat.mul_le_mul_right _ hsm) res) hlt)
      rw [hbyte, hmod]
      have hdec : (value - 128) >>> 7 < value := by
        rw [Nat.shiftRight_eq_div_pow]
        exact Nat.lt_of_le_of_lt (Nat.div_le_self _ _)
          (Nat.sub_lt (by omega) (by omega))
      have hsub : (value - 128) >>> 7 = (value - 128) / 128 := by
        rw [Nat.shiftRight_eq_div_pow]
      have hid : 128 + value % 128 + ((value - 128) / 128) * 128 = value := by
        have h1 := Nat.div_add_mod (value - 128) 128
        omega
      have hkey : res + (128 + value % 128) * 2 ^ off +
          ((value - 128) >>> 7) * 2 ^ (off + 7) = res + value * 2 ^ off := by
        rw [hsub, pow_add, show (2 : Nat) ^ 7 = 128 from by norm_num]
        calc res + (128 + value % 128) * 2 ^ off + (value - 128) / 128 * (2 ^ off * 128)
            = res + (128 + value % 128 + (value - 128) / 128 * 128) * 2 ^ off := by ring
          _ = res + value * 2 ^ off := by rw [hid]
      have harg : res + (128 + value % 128) * 2 ^ off +
          ((value - 128) >>> 7) * 2 ^ (off + 7) < 2 ^ 64 := by
        rw [hkey]; exact hlt
      rw [ih _ hdec _ _ rest harg, hkey]
    · rw [encodeLoop.eq_def, dif_neg h128, List.cons_append, List.nil_append]
      simp only [decodeLoop]
      rw [if_pos (by omega), Nat.shiftLeft_eq, Nat.mod_eq_of_lt hlt]

/-- Round-trip core for the varint codec: decoding the encoding of any
64-bit value yields the value back and consumes exactly the encoded bytes. -/
lemma parseVarint_writeVarint (v : Nat) (hv : v < 2 ^ 64) (rest : List Nat) :
    parseVarint (writeVarint v ++ rest) = .ok v rest := by
  by_cases h240 : v < 240
  · rw [writeVarint, if_pos h240, List.cons_append, List.nil_append]
    simp only [parseVarint]
    rw [if_neg (by omega)]
  · rw [writeVarint, if_neg h240, List.cons_append]
    simp only [parseVarint]
    rw [if_pos (by rw [first_byte_eq]; omega), first_byte_eq]
    have hb : 240 + v % 16 + ((v - 240) >>> 4) * 2 ^ 4 = v := by
      rw [Nat.shiftRight_eq_div_pow, show (2 : Nat) ^ 4 = 16 from by norm_num]
      omega
    rw [decodeLoop_encodeLoop _ _ _ _ (by rw [hb]; exact hv), hb]

/-- `encodeLoop` emits at most `k + 1` bytes on inputs below `2 ^ (7 * (k+1))`. -/
lemma encodeLoop_length : ∀ k value, value < 2 ^ (7 * (k + 1)) →
    (encodeLoop value).length ≤ k + 1 := by
  intro k
  induction k with
  | zero =>
    intro value h
    have h' : value < 128 := by norm_num at h; omega
    rw [encodeLoop.eq_def, dif_neg (by omega)]
    simp
  | succ k ih =>
    intro value h
    by_cases h128 : 128 ≤ value
    · rw [encodeLoop.eq_def, dif_pos h128]
      simp only [List.length_cons]
      have hpow : (2 : Nat) ^ (7 * (k + 1 + 1)) = 2 ^ (7 * (k + 1)) * 128 := by
        rw [show 7 * (k + 1 + 1) = 7 * (k + 1) + 7 by ring, pow_add]; norm_num
      have hlt : (value - 128) >>> 7 < 2 ^ (7 * (k + 1)) := by
        rw [Nat.shiftRight_eq_div_pow, show (2 : Nat) ^ 7 = 128 from by norm_num,
          Nat.div_lt_iff_lt_mul (by norm_num)]
        omega
      exact Nat.succ_le_succ (ih _ hlt)
    · rw [encodeLoop.eq_def, dif_neg h128]; simp

/-- `write_varint` emits at most 10 bytes on any 64-bit value. -/
lemma writeVarint_length_le (v : Nat) (hv : v < 2 ^ 64) :
    (writeVarint v).length ≤ 10 := by
  by_cases h240 : v < 240
  · rw [writeVarint, if_pos h240]; simp
  · rw [writeVarint, if_neg h240]
    simp only [List.length_cons]
    have h1 : (v - 240) >>> 4 < 2 ^ (7 * (8 + 1)) := by
      rw [Nat.shiftRight_eq_div_pow, show (2 : Nat) ^ 4 = 16 from by norm_num,
        Nat.div_lt_iff_lt_mul (by norm_num)]
      have hgoal : (2 : Nat) ^ (7 * (8 + 1)) * 16 = 2 ^ 67 := by norm_num
      rw [hgoal]
      have : (2 : Nat) ^ 64 ≤ 2 ^ 67 := Nat.pow_le_pow_right (by norm_num) (by norm_num)
      omega
    have := encodeLoop_length 8 _ h1
    omega

/-- `write_varint` emits exactly one byte on values below 240. -/
lemma writeVarint_length_one (v : Nat) (hv : v < 240) :
    (writeVarint v).length = 1 := by
  rw [writeVarint, if_pos hv]
  rfl

/-! ### Strings (`src/frame.rs`, `parse_string` / `write_string`)

Rust `String` values are modelled as their UTF-8 byte sequences
(`List Nat`). -/

/-- `frame.rs` `StringError`.  (`Utf8Error` carries a rendered message in the
source; the message text is not modelled.) -/
inductive StringError where
  | insufficientBytes
  | invalidSize (e : VarintError)
  | utf8Error
deriving DecidableEq, Repr

/-- Is `b` a UTF-8 continuation byte (`0x80..0xBF`)? -/
def contByte (b : Nat) : Bool := 128 ≤ b && b ≤ 191

/-- UTF-8 validity of a byte sequence, as checked by `std::str::from_utf8`
(well-formed sequences only: no overlongs, no surrogates, max U+10FFFF). -/
def validUtf8 : List Nat → Bool
  | [] => true
  | b :: rest =>
    if b ≤ 127 then validUtf8 rest
    else if 194 ≤ b && b ≤ 223 then
      match rest with
      | c1 :: rest2 => contByte c1 && validUtf8 rest2
      | [] => false
    else if b == 224 then
      match rest with
      | c1 :: c2 :: rest2 => (160 ≤ c1 && c1 ≤ 191) && contByte c2 && validUtf8 rest2
      | _ => false
    else if 225 ≤ b && b ≤ 236 then
      match rest with
      | c1 :: c2 :: rest2 => contByte c1 && contByte c2 && validUtf8 rest2
      | _ => false
    else if b == 237 then
      match rest with
      | c1 :: c2 :: rest2 => (128 ≤ c1 && c1 ≤ 159) && contByte c2 && validUtf8 rest2
      | _ => false
    else if 238 ≤ b && b ≤ 239 then
      match rest with
      | c1 :: c2 :: rest2 => contByte c1 && contByte c2 && validUtf8 rest2
      | _ => false
    else if b == 240 then
      match rest with
      | c1 :: c2 :: c3 :: rest2 =>
        (144 ≤ c1 && c1 ≤ 191) && contByte c2 && contByte c3 && validUtf8 rest2
      | _ => false
    else if 241 ≤ b && b ≤ 243 then
      match rest with
      | c1 :: c2 :: c3 :: rest2 => contByte c1 && contByte c2 && contByte c3 && validUtf8 rest2
      | _ => false
    else if b == 244 then
      match rest with
      | c1 :: c2 :: c3 :: rest2 =>
        (128 ≤ c1 && c1 ≤ 143) && contByte c2 && contByte c3 && validUtf8 rest2
      | _ => false
    else false

/-- `parse_string` (frame.rs:664-680): varint length prefix, then that many
bytes, checked for UTF-8.  NOTE the source's
`from_utf8(..).map_err(|e| StringError::Utf8Error(..)).unwrap()`: the mapped
error is immediately unwrapped, so invalid UTF-8 panics (`crash`) instead of
returning `Utf8Error`. -/
def parseString (src : List Nat) : PRes StringError (List Nat) :=
  match parseVarint src with
  | .err e => .err (.invalidSize e)
  | .crash => .crash
  | .ok len rest =>
    if len = 0 then .ok [] rest
    else if rest.length < len then .err .insufficientBytes
    else if validUtf8 (rest.take len) then .ok (rest.take len) (rest.drop len)
    else .crash

/-- `write_string` (frame.rs:682-688): varint byte length then the raw
bytes. -/
def writeString (s : List Nat) : List Nat :=
  writeVarint s.length ++ s

/-! ### Typed data (`src/frame.rs`, `parse_typed_data` / `write_typed_data`) -/

/-- `frame.rs` `TypedData`.  IPv4/IPv6 addresses are their octet lists,
strings their UTF-8 bytes; `INT32`/`INT64` carry mathematical integers
(well-formedness of a value is the separate predicate `wfTypedData`). -/
inductive TypedData where
  | NULL
  | BOOL (b : Bool)
  | INT32 (v : Int)
  | UINT32 (v : Nat)
  | INT64 (v : Int)
  | UINT64 (v : Nat)
  | IPV4 (octets : List Nat)
  | IPV6 (octets : List Nat)
  | STRING (bytes : List Nat)
  | BINARY (bytes : List Nat)
deriving DecidableEq, Repr

/-- `frame.rs` `TypedDataType` (the tag nibble values 0..9). -/
inductive TypedDataType where
  | NULL | BOOL | INT32 | UINT32 | INT64 | UINT64 | IPV4 | IPV6 | STRING | BINARY
deriving DecidableEq, Repr

/-- `TypedDataType::try_from` on the low nibble. -/
def typedDataTypeOfU8 : Nat → Option TypedDataType
  | 0 => some .NULL
  | 1 => some .BOOL
  | 2 => some .INT32
  | 3 => some .UINT32
  | 4 => some .INT64
  | 5 => some .UINT64
  | 6 => some .IPV4
  | 7 => some .IPV6
  | 8 => some .STRING
  | 9 => some .BINARY
  | _ => none

/-- `frame.rs` `Ipv4Error` / `Ipv6Error`. -/
inductive Ipv4Error where
  | insufficientBytes
deriving DecidableEq, Repr

inductive Ipv6Error where
  | insufficientBytes
deriving DecidableEq, Repr

/-- `frame.rs` `TypedDataError`. -/
inductive TypedDataError where
  | insufficientBytes
  | invalidType (raw : Nat)
  | invalidString (e : StringError)
  | numberConversionError (t : TypedDataType) (raw : Nat)
  | numberParsingError (t : TypedDataType) (e : VarintError)
  | invalidIpv4 (e : Ipv4Error)
  | invalidIpv6 (e : Ipv6Error)
  | notSupported
deriving DecidableEq, Repr

/-- Rust `raw as i64` on a `u64` value: two's-complement reinterpretation. -/
def i64OfU64 (raw : Nat) : Int :=
  if raw < 2 ^ 63 then (raw : Int) else (raw : Int) - 2 ^ 64

/-- Rust `v as u64` on an `i64`/`i32` value: two's-complement bits as
unsigned. -/
def u64OfInt (v : Int) : Nat := (v % (2 ^ 64 : Int)).toNat

/-- `parse_typed_data` (frame.rs:538-611).  The leading `src.get_u8()` has no
remaining-bytes check, so an empty cursor panics.  `INT32`/`UINT32` check the
decoded unsigned varint against the target width via `try_from`; `IPV4`/`IPV6`
read 4/16 raw octets after an explicit remaining-bytes check. -/
def parseTypedData (src : List Nat) : PRes TypedDataError TypedData :=
  match src with
  | [] => .crash
  | raw :: rest =>
    match typedDataTypeOfU8 (raw &&& 15) with
    | none => .err (.invalidType raw)
    | some t =>
      match t with
      | .NULL => .ok .NULL rest
      | .BOOL => .ok (.BOOL (raw &&& 16 == 16)) rest
      | .INT32 =>
        match parseVarint rest with
        | .err e => .err (.numberParsingError .INT32 e)
        | .crash => .crash
        | .ok r rest2 =>
          if r < 2 ^ 31 then .ok (.INT32 (Int.ofNat r)) rest2
          else .err (.numberConversionError .INT32 r)
      | .UINT32 =>
        match parseVarint rest with
        | .err e => .err (.numberParsingError .UINT32 e)
        | .crash => .crash
        | .ok r rest2 =>
          if r < 2 ^ 32 then .ok (.UINT32 r) rest2
          else .err (.numberConversionError .UINT32 r)
      | .INT64 =>
        match parseVarint rest with
        | .err e => .err (.numberParsingError .INT64 e)
        | .crash => .crash
        | .ok r rest2 => .ok (.INT64 (i64OfU64 r)) rest2
      | .UINT64 =>
        match parseVarint rest with
        | .err e => .err (.numberParsingError .UINT64 e)
        | .crash => .crash
        | .ok r rest2 => .ok (.UINT64 r) rest2
      | .IPV4 =>
        if rest.length < 4 then .err (.invalidIpv4 .insufficientBytes)
        else .ok (.IPV4 (rest.take 4)) (rest.drop 4)
      | .IPV6 =>
        if rest.length < 16 then .err (.invalidIpv6 .insufficientBytes)
        else .ok (.IPV6 (rest.take 16)) (rest.drop 16)
      | .STRING =>
        match parseString rest with
        | .err e => .err (.invalidString e)
        | .crash => .crash
        | .ok s rest2 => .ok (.STRING s) rest2
      | .BINARY => .err .notSupported

/-- The subset of `frame.rs` `Error` used by the codec writers. -/
inductive WError where
  | notSupported
deriving DecidableEq, Repr

/-- `write_typed_data` (frame.rs:613-662), as the bytes appended to the
destination plus the returned error.  The `BINARY` arm first appends the tag
byte `0x09` and only then returns `Err(Error::NotSupported)`. -/
def writeTypedData : TypedData → List Nat × Option WError
  | .NULL => ([0], none)
  | .BOOL b => ([if b then 17 else 1], none)
  | .INT32 v => (2 :: writeVarint (u64OfInt v), none)
  | .UINT32 v => (3 :: writeVarint v, none)
  | .INT64 v => (4 :: writeVarint (u64OfInt v), none)
  | .UINT64 v => (5 :: writeVarint v, none)
  | .IPV4 octets => (6 :: octets, none)
  | .IPV6 octets => (7 :: octets, none)
  | .STRING s => (8 :: writeString s, none)
  | .BINARY _ => ([9], some .notSupported)

/-- `write_typed_data` with the destination buffer explicit (the Rust
function mutates `dst: &mut BytesMut`). -/
def writeTypedDataInto (dst : List Nat) (v : TypedData) : List Nat × Option WError :=
  (dst ++ (writeTypedData v).1, (writeTypedData v).2)

/-- Well-formedness of a `TypedData` value as a Rust value: machine-integer
fields are in range, addresses have 4/16 octets, bytes are bytes, and
`STRING` holds the bytes of a valid Rust `String`. -/
def wfTypedData : TypedData → Bool
  | .NULL => true
  | .BOOL _ => true
  | .INT32 v => -(2 ^ 31) ≤ v && v < 2 ^ 31
  | .UINT32 v => v < 2 ^ 32
  | .INT64 v => -(2 ^ 63) ≤ v && v < 2 ^ 63
  | .UINT64 v => v < 2 ^ 64
  | .IPV4 octets => octets.length == 4 && octets.all (· < 256)
  | .IPV6 octets => octets.length == 16 && octets.all (· < 256)
  | .STRING s => validUtf8 s && s.all (· < 256) && decide (s.length < 2 ^ 64)
  | .BINARY bs => bs.all (· < 256)

/-- String codec round-trip: parsing the written form of a valid Rust string
returns its bytes and consumes exactly the written bytes. -/
lemma parseString_writeString (s : List Nat) (hval : validUtf8 s = true)
    (hlen : s.length < 2 ^ 64) (rest : List Nat) :
    parseString (writeString s ++ rest) = .ok s rest := by
  rw [writeString, List.append_assoc, parseString,
    parseVarint_writeVarint s.length hlen (s ++ rest)]
  dsimp only
  by_cases h0 : s.length = 0
  · rw [if_pos h0]
    rw [List.eq_nil_of_length_eq_zero h0, List.nil_append]
  · rw [if_neg h0, if_neg (by simp), if_pos (by rw [List.take_left]; exact hval),
      List.take_left, List.drop_left]

lemma u64OfInt_lt (v : Int) : u64OfInt v < 2 ^ 64 := by
  unfold u64OfInt
  omega

/-- Two's-complement round-trip for `i64` values. -/
lemma i64OfU64_u64OfInt (v : Int) (h1 : -(2 ^ 63) ≤ v) (h2 : v < 2 ^ 63) :
    i64OfU64 (u64OfInt v) = v := by
  unfold i64OfU64 u64OfInt
  split_ifs with h <;> omega

/-- Typed-data codec round-trip, for every well-formed value that is neither
`BINARY` nor an `INT32` carrying a negative number. -/
lemma parseTypedData_writeTypedData (x : TypedData)
    (hwf : wfTypedData x = true)
    (hbin : ∀ bs, x ≠ .BINARY bs)
    (hneg : ∀ v, x = .INT32 v → 0 ≤ v)
    (rest : List Nat) :
    parseTypedData ((writeTypedData x).1 ++ rest) = .ok x rest := by
  cases x with
  | NULL => rfl
  | BOOL b => cases b <;> rfl
  | INT32 v =>
    have h0 : 0 ≤ v := hneg v rfl
    simp only [wfTypedData, Bool.and_eq_true, decide_eq_true_eq] at hwf
    have hu : u64OfInt v = v.toNat := by
      unfold u64OfInt
      rw [Int.emod_eq_of_lt h0 (by omega)]
    simp only [writeTypedData, hu, List.cons_append, parseTypedData,
      typedDataTypeOfU8, parseVarint_writeVarint v.toNat (by omega) rest]
    rw [if_pos (by omega)]
    rw [show Int.ofNat v.toNat = v from by
      rw [Int.ofNat_eq_natCast]; exact Int.toNat_of_nonneg h0]
  | UINT32 v =>
    simp only [wfTypedData, decide_eq_true_eq] at hwf
    simp only [writeTypedData, List.cons_append, parseTypedData,
      typedDataTypeOfU8, parseVarint_writeVarint v (by omega) rest]
    rw [if_pos hwf]
  | INT64 v =>
    simp only [wfTypedData, Bool.and_eq_true, decide_eq_true_eq] at hwf
    simp only [writeTypedData, List.cons_append, parseTypedData,
      typedDataTypeOfU8, parseVarint_writeVarint (u64OfInt v) (u64OfInt_lt v) rest]
    rw [i64OfU64_u64OfInt v hwf.1 hwf.2]
  | UINT64 v =>
    simp only [wfTypedData, decide_eq_true_eq] at hwf
    simp only [writeTypedData, List.cons_append, parseTypedData,
      typedDataTypeOfU8, parseVarint_writeVarint v hwf rest]
  | IPV4 octets =>
    simp only [wfTypedData, Bool.and_eq_true, beq_iff_eq] at hwf
    simp only [writeTypedData, List.cons_append, parseTypedData, typedDataTypeOfU8]
    rw [if_neg (by simp [hwf.1]), List.take_left' hwf.1, List.drop_left' hwf.1]
  | IPV6 octets =>
    simp only [wfTypedData, Bool.and_eq_true, beq_iff_eq] at hwf
    simp only [writeTypedData, List.cons_append, parseTypedData, typedDataTypeOfU8]
    rw [if_neg (by simp [hwf.1]), List.take_left' hwf.1, List.drop_left' hwf.1]
  | STRING s =>
    simp only [wfTypedData, Bool.and_eq_true, decide_eq_true_eq] at hwf
    simp only [writeTypedData, List.cons_append, parseTypedData, typedDataTypeOfU8,
      parseString_writeString s hwf.1.1 hwf.2 rest]
  | BINARY bs => exact absurd rfl (hbin bs)

/-! ### Consumption lemmas (used for termination of the `while has_remaining`
loops below) -/

lemma decodeLoop_consumes : ∀ (l : List Nat) res off v rest,
    decodeLoop res off l = .ok v rest → rest.length < l.length := by
  intro l
  induction l with
  | nil => intro res off v rest h; simp [decodeLoop] at h
  | cons b tl ih =>
    intro res off v rest h
    simp only [decodeLoop] at h
    by_cases hb : b < 128
    · rw [if_pos hb] at h
      cases h
      simp
    · rw [if_neg hb] at h
      have := ih _ _ _ _ h
      simp only [List.length_cons]
      omega

lemma parseVarint_consumes (src : List Nat) (v : Nat) (rest : List Nat)
    (h : parseVarint src = .ok v rest) : rest.length < src.length := by
  match src with
  | [] => simp [parseVarint] at h
  | b :: tl =>
    simp only [parseVarint] at h
    by_cases hb : 240 ≤ b
    · rw [if_pos hb] at h
      have := decodeLoop_consumes _ _ _ _ _ h
      simp only [List.length_cons]
      omega
    · rw [if_neg hb] at h
      cases h
      simp

lemma parseString_consumes (src : List Nat) (s : List Nat) (rest : List Nat)
    (h : parseString src = .ok s rest) : rest.length < src.length := by
  unfold parseString at h
  match hv : parseVarint src with
  | .err e => rw [hv] at h; cases h
  | .crash => rw [hv] at h; cases h
  | .ok len rest1 =>
    rw [hv] at h
    have hc := parseVarint_consumes _ _ _ hv
    dsimp only at h
    by_cases h0 : len = 0
    · rw [if_pos h0] at h
      cases h
      exact hc
    · rw [if_neg h0] at h
      by_cases h1 : rest1.length < len
      · rw [if_pos h1] at h; cases h
      · rw [if_neg h1] at h
        by_cases h2 : validUtf8 (rest1.take len) = true
        · rw [if_pos h2] at h
          cases h
          simp only [List.length_drop]
          omega
        · rw [if_neg h2] at h; cases h

lemma parseTypedData_consumes (src : List Nat) (x : TypedData) (rest : List Nat)
    (h : parseTypedData src = .ok x rest) : rest.length < src.length := by
  match src with
  | [] => simp [parseTypedData] at h
  | raw :: tl =>
    simp only [parseTypedData] at h
    match htp : typedDataTypeOfU8 (raw &&& 15) with
    | none => rw [htp] at h; cases h
    | some t =>
      rw [htp] at h
      simp only [List.length_cons]
      cases t with
      | NULL => cases h; omega
      | BOOL => cases h; omega
      | INT32 =>
        match hv : parseVarint tl with
        | .err e => rw [hv] at h; cases h
        | .crash => rw [hv] at h; cases h
        | .ok r rest2 =>
          rw [hv] at h
          have := parseVarint_consumes _ _ _ hv
          dsimp only at h
          by_cases hr : r < 2 ^ 31
          · rw [if_pos hr] at h; cases h; omega
          · rw [if_neg hr] at h; cases h
      | UINT32 =>
        match hv : parseVarint tl with
        | .err e => rw [hv] at h; cases h
        | .crash => rw [hv] at h; cases h
        | .ok r rest2 =>
          rw [hv] at h
          have := parseVarint_consumes _ _ _ hv
          dsimp only at h
          by_cases hr : r < 2 ^ 32
          · rw [if_pos hr] at h; cases h; omega
          · rw [if_neg hr] at h; cases h
      | INT64 =>
        match hv : parseVarint tl with
        | .err e => rw [hv] at h; cases h
        | .crash => rw [hv] at h; cases h
        | .ok r rest2 =>
          rw [hv] at h
          have := parseVarint_consumes _ _ _ hv
          cases h
          omega
      | UINT64 =>
        match hv : parseVarint tl with
        | .err e => rw [hv] at h; cases h
        | .crash => rw [hv] at h; cases h
        | .ok r rest2 =>
          rw [hv] at h
          have := parseVarint_consumes _ _ _ hv
          cases h
          omega
      | IPV4 =>
        by_cases h4 : tl.length < 4
        · rw [if_pos h4] at h; cases h
        · rw [if_neg h4] at h
          cases h
          simp only [List.length_drop]
          omega
      | IPV6 =>
        by_cases h16 : tl.length < 16
        · rw [if_pos h16] at h; cases h
        · rw [if_neg h16] at h
          cases h
          simp only [List.length_drop]
          omega
      | STRING =>
        match hs : parseString tl with
        | .err e => rw [hs] at h; cases h
        | .crash => rw [hs] at h; cases h
        | .ok s rest2 =>
          rw [hs] at h
          have := parseString_consumes _ _ _ hs
          cases h
          omega
      | BINARY => cases h

/-! ### KV-lists and message lists (`src/frame.rs`, `parse_kv_list` /
`parse_list_of_messages`)

In this revision of `frame.rs` both collections are `HashMap`s filled with
`insert`.  A `HashMap`'s content is modelled as an association list whose
`insert` removes any previous binding of the key and appends the new one
(Rust's `HashMap::insert` replaces; its iteration order is arbitrary, which
the content model does not capture and no theorem below relies on). -/

/-- Content model of `HashMap::insert`: last write wins, previous binding of
the key removed. -/
def hmInsert {κ β : Type} [BEq κ] (m : List (κ × β)) (k : κ) (v : β) :
    List (κ × β) :=
  m.filter (fun p => p.1 != k) ++ [(k, v)]

/-- A KV payload body (content of `HashMap<String, TypedData>`). -/
abbrev KVMap := List (List Nat × TypedData)

/-- A NOTIFY message map (content of `HashMap<String, HashMap<..>>`). -/
abbrev MsgMap := List (List Nat × KVMap)

/-- `frame.rs` `KVListError`. -/
inductive KVListError where
  | insufficientBytes
  | invalidKVListName (e : StringError)
  | invalidKVListValue (e : TypedDataError)
deriving DecidableEq, Repr

/-- `frame.rs` `ListOfMessagesError`. -/
inductive ListOfMessagesError where
  | insufficientBytes
  | invalidMessageName (e : StringError)
  | invalidKVListName (e : StringError)
  | invalidKVListValue (e : TypedDataError)
deriving DecidableEq, Repr

/-- The `while src.has_remaining()` loop of `parse_kv_list` (frame.rs:520-528),
with the map accumulated in `body`. -/
def parseKVListAux (body : KVMap) (src : List Nat) : PRes KVListError KVMap :=
  if src = [] then .ok body []
  else
    match h1 : parseString src with
    | .err e => .err (.invalidKVListName e)
    | .crash => .crash
    | .ok name rest =>
      match h2 : parseTypedData rest with
      | .err e => .err (.invalidKVListValue e)
      | .crash => .crash
      | .ok value rest2 => parseKVListAux (hmInsert body name value) rest2
termination_by src.length
decreasing_by
  have hc1 := parseString_consumes _ _ _ h1
  have hc2 := parseTypedData_consumes _ _ _ h2
  omega

/-- `parse_kv_list` (frame.rs:520-528). -/
def parseKVList (src : List Nat) : PRes KVListError KVMap :=
  parseKVListAux [] src

/-- The inner `for _ in 0..nb_args` loop of `parse_list_of_messages`
(frame.rs:508-513). -/
def parseMessageArgs : Nat → KVMap → List Nat → PRes ListOfMessagesError KVMap
  | 0, content, src => .ok content src
  | n + 1, content, src =>
    match parseString src with
    | .err e => .err (.invalidKVListName e)
    | .crash => .crash
    | .ok name rest =>
      match parseTypedData rest with
      | .err e => .err (.invalidKVListValue e)
      | .crash => .crash
      | .ok value rest2 => parseMessageArgs n (hmInsert content name value) rest2

lemma parseMessageArgs_consumes : ∀ (n : Nat) (content : KVMap) (src : List Nat)
    (c : KVMap) (rest : List Nat),
    parseMessageArgs n content src = .ok c rest → rest.length ≤ src.length := by
  intro n
  induction n with
  | zero =>
    intro content src c rest h
    cases h
    exact Nat.le_refl _
  | succ n ih =>
    intro content src c rest h
    simp only [parseMessageArgs] at h
    match h1 : parseString src with
    | .err e => rw [h1] at h; cases h
    | .crash => rw [h1] at h; cases h
    | .ok name rest1 =>
      rw [h1] at h
      dsimp only at h
      have hc1 := parseString_consumes _ _ _ h1
      match h2 : parseTypedData rest1 with
      | .err e => rw [h2] at h; cases h
      | .crash => rw [h2] at h; cases h
      | .ok value rest2 =>
        rw [h2] at h
        dsimp only at h
        have hc2 := parseTypedData_consumes _ _ _ h2
        have := ih _ _ _ _ h
        omega

/-- The outer `while src.has_remaining()` loop of `parse_list_of_messages`
(frame.rs:498-518).  The `src.get_u8()` for `nb_args` has no
remaining-bytes check, hence the `crash` on an exhausted cursor. -/
def parseListOfMessagesAux (msgs : MsgMap) (src : List Nat) :
    PRes ListOfMessagesError MsgMap :=
  if src = [] then .ok msgs []
  else
    match h1 : parseString src with
    | .err e => .err (.invalidMessageName e)
    | .crash => .crash
    | .ok name rest =>
      match rest with
      | [] => .crash
      | nbArgs :: rest2 =>
        match h2 : parseMessageArgs nbArgs [] rest2 with
        | .err e => .err e
        | .crash => .crash
        | .ok content rest3 => parseListOfMessagesAux (hmInsert msgs name content) rest3
termination_by src.length
decreasing_by
  have hc1 := parseString_consumes _ _ _ h1
  have hc2 := parseMessageArgs_consumes _ _ _ _ _ h2
  simp only [List.length_cons] at hc1
  omega

/-- `parse_list_of_messages` (frame.rs:498-518). -/
def parseListOfMessages (src : List Nat) : PRes ListOfMessagesError MsgMap :=
  parseListOfMessagesAux [] src

/-! ### Actions (`src/frame.rs`, `parse_action` and friends) -/

/-- `frame.rs` `ActionVarScope`. -/
inductive ActionVarScope where
  | PROCESS | SESSION | TRANSACTION | REQUEST | RESPONSE
deriving DecidableEq, Repr

/-- `frame.rs` `ActionType`. -/
inductive ActionType where
  | SET_VAR | UNSET_VAR
deriving DecidableEq, Repr

/-- `frame.rs` `Action`. -/
inductive Action where
  | SetVar (scope : ActionVarScope) (name : List Nat) (value : TypedData)
  | UnsetVar (scope : ActionVarScope) (name : List Nat)
deriving DecidableEq, Repr

/-- `frame.rs` `ActionError`. -/
inductive ActionError where
  | insufficientBytes
  | invalidActionType (raw : Nat)
  | invalidActionScope (raw : Nat)
  | invalidNumberOfArgs (t : ActionType) (got expected : Nat)
  | invalidSetVarActionVarName (e : StringError)
  | invalidSetVarActionVarValue (e : TypedDataError)
  | invalidUnsetVarActionVarName (e : StringError)
deriving DecidableEq, Repr

/-- `frame.rs` `ListOfActionsError`. -/
inductive ListOfActionsError where
  | invalidAction (e : ActionError)
deriving DecidableEq, Repr

/-- `parse_action_type` (frame.rs:486-490); the unchecked `get_u8` panics on
an empty cursor. -/
def parseActionTypeF : List Nat → PRes ActionError ActionType
  | [] => .crash
  | raw :: rest =>
    match raw with
    | 1 => .ok .SET_VAR rest
    | 2 => .ok .UNSET_VAR rest
    | _ => .err (.invalidActionType raw)

/-- `parse_action_scope` (frame.rs:492-496). -/
def parseActionScopeF : List Nat → PRes ActionError ActionVarScope
  | [] => .crash
  | raw :: rest =>
    match raw with
    | 0 => .ok .PROCESS rest
    | 1 => .ok .SESSION rest
    | 2 => .ok .TRANSACTION rest
    | 3 => .ok .REQUEST rest
    | 4 => .ok .RESPONSE rest
    | _ => .err (.invalidActionScope raw)

/-- `parse_action` (frame.rs:449-484).  Note the source reports
`ActionType::SET_VAR` in the `InvalidNumberOfArgs` error of the `UNSET_VAR`
branch as well (frame.rs:471-475); the model keeps that. -/
def parseAction (src : List Nat) : PRes ActionError Action :=
  match parseActionTypeF src with
  | .err e => .err e
  | .crash => .crash
  | .ok t rest =>
    match rest with
    | [] => .crash
    | nbArgs :: rest2 =>
      match t with
      | .SET_VAR =>
        if nbArgs ≠ 3 then .err (.invalidNumberOfArgs .SET_VAR nbArgs 3)
        else
          match parseActionScopeF rest2 with
          | .err e => .err e
          | .crash => .crash
          | .ok scope rest3 =>
            match parseString rest3 with
            | .err e => .err (.invalidSetVarActionVarName e)
            | .crash => .crash
            | .ok name rest4 =>
              match parseTypedData rest4 with
              | .err e => .err (.invalidSetVarActionVarValue e)
              | .crash => .crash
              | .ok value rest5 => .ok (.SetVar scope name value) rest5
      | .UNSET_VAR =>
        if nbArgs ≠ 2 then .err (.invalidNumberOfArgs .SET_VAR nbArgs 2)
        else
          match parseActionScopeF rest2 with
          | .err e => .err e
          | .crash => .crash
          | .ok scope rest3 =>
            match parseString rest3 with
            | .err e => .err (.invalidUnsetVarActionVarName e)
            | .crash => .crash
            | .ok name rest4 => .ok (.UnsetVar scope name) rest4

lemma parseActionTypeF_consumes (src : List Nat) (t : ActionType) (rest : List Nat)
    (h : parseActionTypeF src = .ok t rest) : rest.length < src.length := by
  match src with
  | [] => cases h
  | raw :: tl =>
    simp only [parseActionTypeF] at h
    match raw with
    | 1 => cases h; simp
    | 2 => cases h; simp
    | 0 => cases h
    | (n + 3) => cases h

lemma parseActionScopeF_consumes (src : List Nat) (s : ActionVarScope) (rest : List Nat)
    (h : parseActionScopeF src = .ok s rest) : rest.length < src.length := by
  match src with
  | [] => cases h
  | raw :: tl =>
    simp only [parseActionScopeF] at h
    match raw with
    | 0 => cases h; simp
    | 1 => cases h; simp
    | 2 => cases h; simp
    | 3 => cases h; simp
    | 4 => cases h; simp
    | (n + 5) => cases h

lemma parseAction_consumes (src : List Nat) (a : Action) (rest : List Nat)
    (h : parseAction src = .ok a rest) : rest.length < src.length := by
  unfold parseAction at h
  match h1 : parseActionTypeF src with
  | .err e => rw [h1] at h; cases h
  | .crash => rw [h1] at h; cases h
  | .ok t rest1 =>
    rw [h1] at h
    dsimp only at h
    have hc1 := parseActionTypeF_consumes _ _ _ h1
    match rest1, hc1 with
    | [], _ => cases h
    | nbArgs :: rest2, hc1 =>
      dsimp only at h
      cases t with
      | SET_VAR =>
        dsimp only at h
        by_cases hn : nbArgs ≠ 3
        · rw [if_pos hn] at h; cases h
        · rw [if_neg hn] at h
          match h2 : parseActionScopeF rest2 with
          | .err e => rw [h2] at h; cases h
          | .crash => rw [h2] at h; cases h
          | .ok scope rest3 =>
            rw [h2] at h
            dsimp only at h
            have hc2 := parseActionScopeF_consumes _ _ _ h2
            match h3 : parseString rest3 with
            | .err e => rw [h3] at h; cases h
            | .crash => rw [h3] at h; cases h
            | .ok name rest4 =>
              rw [h3] at h
              dsimp only at h
              have hc3 := parseString_consumes _ _ _ h3
              match h4 : parseTypedData rest4 with
              | .err e => rw [h4] at h; cases h
              | .crash => rw [h4] at h; cases h
              | .ok value rest5 =>
                rw [h4] at h
                dsimp only at h
                have hc4 := parseTypedData_consumes _ _ _ h4
                cases h
                simp only [List.length_cons] at hc1
                omega
      | UNSET_VAR =>
        dsimp only at h
        by_cases hn : nbArgs ≠ 2
        · rw [if_pos hn] at h; cases h
        · rw [if_neg hn] at h
          match h2 : parseActionScopeF rest2 with
          | .err e => rw [h2] at h; cases h
          | .crash => rw [h2] at h; cases h
          | .ok scope rest3 =>
            rw [h2] at h
            dsimp only at h
            have hc2 := parseActionScopeF_consumes _ _ _ h2
            match h3 : parseString rest3 with
            | .err e => rw [h3] at h; cases h
            | .crash => rw [h3] at h; cases h
            | .ok name rest4 =>
              rw [h3] at h
              dsimp only at h
              have hc3 := parseString_consumes _ _ _ h3
              cases h
              simp only [List.length_cons] at hc1
              omega

/-- The `while src.has_remaining()` loop of `parse_list_of_actions`
(frame.rs:438-447); actions accumulate in order in a `Vec`. -/
def parseListOfActionsAux (actions : List Action) (src : List Nat) :
    PRes ListOfActionsError (List Action) :=
  if src = [] then .ok actions []
  else
    match h1 : parseAction src with
    | .err e => .err (.invalidAction e)
    | .crash => .crash
    | .ok a rest => parseListOfActionsAux (actions ++ [a]) rest
termination_by src.length
decreasing_by
  exact parseAction_consumes _ _ _ h1

/-- `parse_list_of_actions` (frame.rs:438-447). -/
def parseListOfActions (src : List Nat) : PRes ListOfActionsError (List Action) :=
  parseListOfActionsAux [] src

/-! ### Frames (`src/frame.rs`, `Frame::parse` / `Frame::write_to`) -/

/-- `frame.rs` `FrameType`. -/
inductive FrameType where
  | UNSET | HAPROXY_HELLO | HAPROXY_DISCONNECT | NOTIFY
  | AGENT_HELLO | AGENT_DISCONNECT | ACK
deriving DecidableEq, Repr

/-- `FrameType::try_from` (`TryFromPrimitive`). -/
def frameTypeOfU8 : Nat → Option FrameType
  | 0 => some .UNSET
  | 1 => some .HAPROXY_HELLO
  | 2 => some .HAPROXY_DISCONNECT
  | 3 => some .NOTIFY
  | 101 => some .AGENT_HELLO
  | 102 => some .AGENT_DISCONNECT
  | 103 => some .ACK
  | _ => none

/-- `FrameType` into its wire byte (`IntoPrimitive`). -/
def frameTypeToU8 : FrameType → Nat
  | .UNSET => 0
  | .HAPROXY_HELLO => 1
  | .HAPROXY_DISCONNECT => 2
  | .NOTIFY => 3
  | .AGENT_HELLO => 101
  | .AGENT_DISCONNECT => 102
  | .ACK => 103

/-- `FrameFlags::is_fin` (frame.rs:121-123): bit 0 of the 32-bit field. -/
def isFin (flags : Nat) : Bool := flags &&& 1 != 0

/-- `FrameFlags::is_abort` (frame.rs:124-126): bit 1. -/
def isAbort (flags : Nat) : Bool := flags &&& 2 != 0

/-- `FrameFlags::new` (frame.rs:128-144). -/
def flagsNew (fin abort : Bool) : Nat :=
  (if fin then 1 else 0) ||| (if abort then 2 else 0)

/-- `frame.rs` `FrameHeader` (`ftype` is the source's `r#type`). -/
structure FrameHeader where
  ftype : FrameType
  flags : Nat
  streamId : Nat
  frameId : Nat
deriving DecidableEq, Repr

/-- `FrameHeader::reply_header` (frame.rs:107-114): copy the ids, set
FIN=true / ABORT=false, take the caller's frame type. -/
def FrameHeader.replyHeader (h : FrameHeader) (t : FrameType) : FrameHeader :=
  { ftype := t, flags := flagsNew true false,
    streamId := h.streamId, frameId := h.frameId }

/-- `frame.rs` `Frame`. -/
inductive Frame where
  | HAProxyHello (header : FrameHeader) (content : KVMap)
  | HAProxyDisconnect (header : FrameHeader) (content : KVMap)
  | Notify (header : FrameHeader) (messages : MsgMap)
  | AgentHello (header : FrameHeader) (content : KVMap)
  | AgentDisconnect (header : FrameHeader)
  | Ack (header : FrameHeader) (actions : List Action)
deriving DecidableEq, Repr

/-- `frame.rs` `FrameHeaderError`. -/
inductive FrameHeaderError where
  | insufficientBytes
  | invalidFrameType (raw : Nat)
  | invalidStreamId (e : VarintError)
  | invalidFrameId (e : VarintError)
deriving DecidableEq, Repr

/-- `frame.rs` `FramePayloadError`. -/
inductive FramePayloadError where
  | insufficientBytes
  | invalidKVList (e : KVListError)
  | invalidListOfMessages (e : ListOfMessagesError)
  | invalidListOfActions (e : ListOfActionsError)
  | notSupported (t : FrameType)
deriving DecidableEq, Repr

/-- `frame.rs` `FrameError`. -/
inductive FrameError where
  | insufficientBytes
  | invalidFrameHeader (e : FrameHeaderError)
  | invalidFramePayload (e : FramePayloadError)
deriving DecidableEq, Repr

/-- `frame.rs` `Error`.  (`IO` carries an `io::Error` and `Other` a message;
those payloads are not modelled.  `noneErr` is the source's `Error::None`.) -/
inductive Error where
  | incomplete
  | invalidCursor (expected remaining : Nat)
  | fragmentedModeNotSupported
  | notSupported
  | disconnect
  | invalidFrame (e : FrameError)
  | ioError
  | other
  | noneErr
deriving DecidableEq, Repr

/-- Big-endian `u32` read of four bytes (`src.get_u32()`). -/
def beU32 (b0 b1 b2 b3 : Nat) : Nat :=
  ((b0 * 256 + b1) * 256 + b2) * 256 + b3

/-- Big-endian `u32` write (`dst.put_u32(n)`). -/
def u32be (n : Nat) : List Nat :=
  [n / 2 ^ 24 % 256, n / 2 ^ 16 % 256, n / 2 ^ 8 % 256, n % 256]

/-- `parse_frame_header` (frame.rs:690-704).  The `get_u8` / `get_u32` reads
have no remaining-bytes checks, hence the `crash` arms; an invalid type byte
is reported before the flags are read, matching the source order. -/
def parseFrameHeader (src : List Nat) : PRes FrameHeaderError FrameHeader :=
  match src with
  | [] => .crash
  | raw :: rest =>
    match frameTypeOfU8 raw with
    | none => .err (.invalidFrameType raw)
    | some t =>
      match rest with
      | b0 :: b1 :: b2 :: b3 :: rest2 =>
        match parseVarint rest2 with
        | .err e => .err (.invalidStreamId e)
        | .crash => .crash
        | .ok sid rest3 =>
          match parseVarint rest3 with
          | .err e => .err (.invalidFrameId e)
          | .crash => .crash
          | .ok fid rest4 =>
            .ok { ftype := t, flags := beU32 b0 b1 b2 b3,
                  streamId := sid, frameId := fid } rest4
      | _ => .crash

/-- `write_frame_header` (frame.rs:706-714). -/
def writeFrameHeader (h : FrameHeader) : List Nat :=
  frameTypeToU8 h.ftype :: (u32be h.flags ++ writeVarint h.streamId ++ writeVarint h.frameId)

/-- `parse_frame_payload` (frame.rs:366-410): payload shape by frame type;
`UNSET` and `AGENT_DISCONNECT` fall into the `NotSupported` arm. -/
def parseFramePayload (src : List Nat) (hdr : FrameHeader) :
    PRes FramePayloadError Frame :=
  match hdr.ftype with
  | .HAPROXY_HELLO =>
    match parseKVList src with
    | .err e => .err (.invalidKVList e)
    | .crash => .crash
    | .ok body rest => .ok (.HAProxyHello hdr body) rest
  | .AGENT_HELLO =>
    match parseKVList src with
    | .err e => .err (.invalidKVList e)
    | .crash => .crash
    | .ok body rest => .ok (.AgentHello hdr body) rest
  | .HAPROXY_DISCONNECT =>
    match parseKVList src with
    | .err e => .err (.invalidKVList e)
    | .crash => .crash
    | .ok body rest => .ok (.HAProxyDisconnect hdr body) rest
  | .NOTIFY =>
    match parseListOfMessages src with
    | .err e => .err (.invalidListOfMessages e)
    | .crash => .crash
    | .ok body rest => .ok (.Notify hdr body) rest
  | .ACK =>
    match parseListOfActions src with
    | .err e => .err (.invalidListOfActions e)
    | .crash => .crash
    | .ok body rest => .ok (.Ack hdr body) rest
  | t => .err (.notSupported t)

/-- `Frame::parse` (frame.rs:316-333): read the `u32` length (panicking if
fewer than 4 bytes remain), require it to equal the remaining byte count
exactly, parse the header, reject non-FIN frames, then parse the payload. -/
def Frame.parse (src : List Nat) : PRes Error Frame :=
  match src with
  | b0 :: b1 :: b2 :: b3 :: rest =>
    let len := beU32 b0 b1 b2 b3
    if len ≠ rest.length then .err (.invalidCursor len rest.length)
    else
      match parseFrameHeader rest with
      | .err e => .err (.invalidFrame (.invalidFrameHeader e))
      | .crash => .crash
      | .ok hdr rest2 =>
        if ¬ isFin hdr.flags then .err .fragmentedModeNotSupported
        else
          match parseFramePayload rest2 hdr with
          | .err e => .err (.invalidFrame (.invalidFramePayload e))
          | .crash => .crash
          | .ok f rest3 => .ok f rest3
  | _ => .crash

/-- Outcome of a `write_*` function that mutates a `BytesMut`: the appended
bytes on success, the returned error, or a panic from an inner `.unwrap()`. -/
inductive WRes where
  | ok (bytes : List Nat)
  | err (e : Error)
  | crash
deriving DecidableEq, Repr

/-- `write_kv_list` (frame.rs:530-536): write each pair; the inner
`write_typed_data(..).unwrap()` panics when the value is `BINARY`. -/
def writeKVList : KVMap → WRes
  | [] => .ok []
  | (k, v) :: rest =>
    match writeTypedData v with
    | (bs, none) =>
      match writeKVList rest with
      | .ok bs2 => .ok (writeString k ++ bs ++ bs2)
      | other => other
    | (_, some _) => .crash

/-- `ActionVarScope` into its wire byte. -/
def scopeToU8 : ActionVarScope → Nat
  | .PROCESS => 0
  | .SESSION => 1
  | .TRANSACTION => 2
  | .REQUEST => 3
  | .RESPONSE => 4

/-- `write_action` (frame.rs:419-436): action type byte (SET_VAR=1 /
UNSET_VAR=2), arg count (3 / 2), scope byte, name, and for SET_VAR the typed
value (whose write is `.unwrap()`ed, panicking on `BINARY`). -/
def writeActionBytes : Action → WRes
  | .SetVar scope name value =>
    match writeTypedData value with
    | (bs, none) => .ok (1 :: 3 :: scopeToU8 scope :: (writeString name ++ bs))
    | (_, some _) => .crash
  | .UnsetVar scope name => .ok (2 :: 2 :: scopeToU8 scope :: writeString name)

/-- `write_list_of_actions` (frame.rs:412-417). -/
def writeListOfActions : List Action → WRes
  | [] => .ok []
  | a :: rest =>
    match writeActionBytes a with
    | .ok bs =>
      match writeListOfActions rest with
      | .ok bs2 => .ok (bs ++ bs2)
      | other => other
    | other => other

/-- `Frame::write_to` (frame.rs:335-349): only `AgentHello` and `Ack` frames
are encoded — header bytes then payload bytes, with NO length prefix; every
other variant returns `Err(Error::NotSupported)`. -/
def Frame.writeTo : Frame → WRes
  | .AgentHello header content =>
    match writeKVList content with
    | .ok bs => .ok (writeFrameHeader header ++ bs)
    | other => other
  | .Ack header actions =>
    match writeListOfActions actions with
    | .ok bs => .ok (writeFrameHeader header ++ bs)
    | other => other
  | _ => .err .notSupported

/-! ### Byte-string constants

Rust string literals used by `main.rs` / `otel.rs`, as UTF-8 byte lists. -/

/-- the bytes of the literal `tag` -/
def tagKeyB : List Nat := [116, 97, 103]
/-- the bytes of the literal `id` -/
def idKeyB : List Nat := [105, 100]
/-- the bytes of the literal `server.tx_id` -/
def txIdKeyB : List Nat := [115, 101, 114, 118, 101, 114, 46, 116, 120, 95, 105, 100]
/-- the bytes of the literal `server.name` -/
def serverNameKeyB : List Nat := [115, 101, 114, 118, 101, 114, 46, 110, 97, 109, 101]
/-- the bytes of the literal `traceparent` -/
def traceparentB : List Nat := [116, 114, 97, 99, 101, 112, 97, 114, 101, 110, 116]
/-- the bytes of the literal `tracestate` -/
def tracestateB : List Nat := [116, 114, 97, 99, 101, 115, 116, 97, 116, 101]
/-- the bytes of the literal `opentracing:frontend_tcp_request` -/
def tcpReqB : List Nat :=
  [111, 112, 101, 110, 116, 114, 97, 99, 105, 110, 103, 58,
   102, 114, 111, 110, 116, 101, 110, 100, 95, 116, 99, 112, 95,
   114, 101, 113, 117, 101, 115, 116]
/-- the bytes of the literal `opentracing:frontend_http_request` -/
def httpReqB : List Nat :=
  [111, 112, 101, 110, 116, 114, 97, 99, 105, 110, 103, 58,
   102, 114, 111, 110, 116, 101, 110, 100, 95, 104, 116, 116, 112, 95,
   114, 101, 113, 117, 101, 115, 116]
/-- the bytes of the literal `opentracing:http_response` -/
def httpRespB : List Nat :=
  [111, 112, 101, 110, 116, 114, 97, 99, 105, 110, 103, 58,
   104, 116, 116, 112, 95, 114, 101, 115, 112, 111, 110, 115, 101]
/-- the bytes of the literal `version` -/
def versionKeyB : List Nat := [118, 101, 114, 115, 105, 111, 110]
/-- the bytes of the literal `2.0` -/
def versionValB : List Nat := [50, 46, 48]
/-- the bytes of the literal `max-frame-size` -/
def maxFrameSizeKeyB : List Nat :=
  [109, 97, 120, 45, 102, 114, 97, 109, 101, 45, 115, 105, 122, 101]
/-- the bytes of the literal `capabilities` -/
def capabilitiesKeyB : List Nat :=
  [99, 97, 112, 97, 98, 105, 108, 105, 116, 105, 101, 115]
/-- the bytes of the literal `pipelining` -/
def pipeliningB : List Nat := [112, 105, 112, 101, 108, 105, 110, 105, 110, 103]

/-! ### Rendering helpers (`TypedData` stringification, decimal/hex digits)

`otel.rs` calls `value.to_string()` on `TypedData`; the `Display`
implementation is not under `src/`, so it is modelled from the spec. -/

/-- Decimal digits of a natural number, as ASCII bytes. -/
def natDecBytes (n : Nat) : List Nat :=
  if h : n < 10 then [48 + n]
  else natDecBytes (n / 10) ++ [48 + n % 10]
termination_by n
decreasing_by
  exact Nat.div_lt_self (by omega) (by omega)

/-- Decimal rendering of an integer (leading `-` for negatives). -/
def intDecBytes (v : Int) : List Nat :=
  if v < 0 then 45 :: natDecBytes (-v).toNat else natDecBytes v.toNat

/-- Lowercase hex digit. -/
def hexDigit (n : Nat) : Nat := if n < 10 then 48 + n else 87 + n

/-- Hex digits of a natural number, no padding, lowercase. -/
def natHexBytes (n : Nat) : List Nat :=
  if h : n < 16 then [hexDigit n]
  else natHexBytes (n / 16) ++ [hexDigit (n % 16)]
termination_by n
decreasing_by
  exact Nat.div_lt_self (by omega) (by omega)

/-- `n` rendered as exactly `w` lowercase hex digits (for `{:032x}` etc.). -/
def natHexPad (w n : Nat) : List Nat :=
  (List.range w).reverse.map (fun i => hexDigit (n / 16 ^ i % 16))

/-- Dotted-quad rendering of 4 octets. -/
def ipv4Str (octets : List Nat) : List Nat :=
  match octets with
  | [a, b, c, d] =>
    natDecBytes a ++ [46] ++ natDecBytes b ++ [46] ++ natDecBytes c ++ [46] ++ natDecBytes d
  | _ => []

/-- 16 octets into 8 hextets. -/
def hextets : List Nat → List Nat
  | a :: b :: rest => (a * 256 + b) :: hextets rest
  | _ => []

/-- Length of the zero run starting at index `i`. -/
def zeroRunAt (hs : List Nat) (i : Nat) : Nat :=
  ((hs.drop i).takeWhile (· == 0)).length

/-- Leftmost longest zero run (start, length). -/
def bestZeroRun (hs : List Nat) : Nat × Nat :=
  (List.range hs.length).foldl
    (fun best i => if zeroRunAt hs i > best.2 then (i, zeroRunAt hs i) else best)
    (0, 0)

/-- Join hextet renderings with `:`. -/
def joinColon (xs : List (List Nat)) : List Nat :=
  List.intercalate [58] xs

/-- Modelled from the spec: the canonical textual form of an IPv6 address
(lowercase hextets, longest zero run of length at least 2 compressed to `::`,
leftmost on ties).  The special mixed IPv4 notations of Rust's `Display` are
not modelled; no claim below inspects IPv6 text. -/
def ipv6Str (octets : List Nat) : List Nat :=
  let hs := hextets octets
  let best := bestZeroRun hs
  if best.2 > 1 then
    joinColon ((hs.take best.1).map natHexBytes) ++ [58, 58] ++
      joinColon ((hs.drop (best.1 + best.2)).map natHexBytes)
  else joinColon (hs.map natHexBytes)

/-- Modelled from the spec: `stringify(v)` — the missing `Display` impl of
`TypedData` used by `otel.rs` via `.to_string()` (§4.7): STRING keeps its
bytes; IPV4/IPV6 render textually; numerics render base-10; BOOL as
`true`/`false`; NULL as `<null>`; BINARY as `<bin>`. -/
def stringify : TypedData → List Nat
  | .NULL => [60, 110, 117, 108, 108, 62]
  | .BOOL b => if b then [116, 114, 117, 101] else [102, 97, 108, 115, 101]
  | .INT32 v => intDecBytes v
  | .UINT32 v => natDecBytes v
  | .INT64 v => intDecBytes v
  | .UINT64 v => natDecBytes v
  | .IPV4 octets => ipv4Str octets
  | .IPV6 octets => ipv6Str octets
  | .STRING s => s
  | .BINARY _ => [60, 98, 105, 110, 62]

/-! ### `src/proplists.rs` and tag extraction (`src/otel.rs`) -/

/-- `proplists.rs` `PropLists<String>`: an ordered list of (key, value)
pairs; `push` appends. -/
abbrev PropList := List (List Nat × List Nat)

/-- ASCII lower-casing of one byte (for `eq_ignore_ascii_case`). -/
def lowerB (b : Nat) : Nat := if 65 ≤ b && b ≤ 90 then b + 32 else b

/-- Rust `str::eq_ignore_ascii_case`. -/
def eqIgnoreCase (a b : List Nat) : Bool :=
  a.map lowerB == b.map lowerB

/-- The fold of `extract_tags` (otel.rs:171-203) over the remaining pairs,
carrying the accumulated `props`, the open tag `tagName` (`tag_name`) and its
accumulator `s`.  `u` is the `unknown_tag` function argument. -/
def extractTagsAux (u : PropList → List Nat → TypedData → PropList) :
    List (List Nat × TypedData) → PropList → Option (List Nat) → List Nat → PropList
  | [], props, tagName, s =>
    match tagName with
    | some t => props ++ [(t, s)]
    | none => props
  | (k, v) :: rest, props, tagName, s =>
    if k ≠ [] then
      match tagName with
      | some t =>
        if k = tagKeyB then
          extractTagsAux u rest (props ++ [(t, s)]) (some (stringify v)) []
        else
          extractTagsAux u rest (u (props ++ [(t, s)]) k v) none []
      | none =>
        if k = tagKeyB then extractTagsAux u rest props (some (stringify v)) s
        else extractTagsAux u rest (u props k v) none s
    else
      match tagName with
      | some t => extractTagsAux u rest props (some t) (s ++ stringify v)
      | none => extractTagsAux u rest props none s

/-- `extract_tags` (otel.rs:171-203). -/
def extractTags (details : List (List Nat × TypedData))
    (u : PropList → List Nat → TypedData → PropList) : PropList :=
  extractTagsAux u details [] none []

/-- `unknown_tag_extra` (otel.rs:128-136): for the `id` entry, push
`server.tx_id` and, when the value contains `:`, `server.name` (the part
before the first `:`). -/
def unknownTagExtra (dst : PropList) (key : List Nat) (value : TypedData) : PropList :=
  if key = idKeyB then
    let raw := stringify value
    let dst1 := dst ++ [(txIdKeyB, raw)]
    match raw.findIdx? (· == 58) with
    | some i => dst1 ++ [(serverNameKeyB, raw.take i)]
    | none => dst1
  else dst

/-! ### Span registry and notify dispatcher (`src/otel.rs`) -/

/-- Modelled from the spec (§6): the context of a started span — trace id,
span id, trace flags, and the `tracestate` header bytes. -/
structure SpanCtx where
  traceId : Nat
  spanId : Nat
  flags : Nat
  state : List Nat
deriving DecidableEq, Repr

/-- A span handle held in the registry: the SDK handle is modelled by its
numeric id together with the attributes set on it by `enrich_span_with_tags`. -/
structure SpanRec where
  sid : Nat
  attrs : PropList
deriving DecidableEq, Repr

/-- State of the otel layer: the shared registry
(`Arc<Mutex<HashMap<String, OtelSpanContext>>>` content), the id counter of
the modelled tracer, and the spans on which `.end()` has been called. -/
structure OtelSt where
  db : List (List Nat × SpanRec)
  nextSpan : Nat
  ended : List SpanRec
deriving DecidableEq, Repr

/-- `key_of` (otel.rs:146-152): `details.iter().find(|(k, _)| k == "id")
.unwrap()` — `none` models the panic when no `id` entry exists; a non-STRING
`id` yields the literal `::` as `str_id`.  The key is
`"{stream_id}::{str_id}"`. -/
def keyOf (header : FrameHeader) (details : KVMap) : Option (List Nat) :=
  match details.find? (fun p => p.1 == idKeyB) with
  | none => none
  | some (_, .STRING s) => some (natDecBytes header.streamId ++ [58, 58] ++ s)
  | some _ => some (natDecBytes header.streamId ++ [58, 58] ++ [58, 58])

/-- `KVListExtractor::get` (otel.rs:207-220): `find(..).unwrap()` panics
(outer `none`) when the key is ABSENT; a present non-STRING value yields the
SDK-visible `None` (inner `none`). -/
def kvGetStr (details : KVMap) (key : List Nat) : Option (Option (List Nat)) :=
  match details.find? (fun p => p.1 == key) with
  | none => none
  | some (_, .STRING s) => some (some s)
  | some _ => some none

/-- Is `b` a lowercase hex digit byte? -/
def isHexB (b : Nat) : Bool := (48 ≤ b && b ≤ 57) || (97 ≤ b && b ≤ 102)

/-- Hex digits to a number. -/
def hexToNat (s : List Nat) : Nat :=
  s.foldl (fun a b => a * 16 + (if b ≤ 57 then b - 48 else b - 87)) 0

/-- Modelled from the spec (§4.7, §6): W3C `traceparent` well-formedness as
checked by the SDK's `TraceContextPropagator`: `vv-tttt…-pppp…-ff` with the
right lengths, lowercase hex, version not `ff`, ids not all-zero. -/
def validTraceparent (s : List Nat) : Bool :=
  s.length == 55 &&
  (s.take 2).all isHexB && (s.take 2) != [102, 102] &&
  s.getD 2 0 == 45 && s.getD 35 0 == 45 && s.getD 52 0 == 45 &&
  ((s.drop 3).take 32).all isHexB && ((s.drop 3).take 32).any (· != 48) &&
  ((s.drop 36).take 16).all isHexB && ((s.drop 36).take 16).any (· != 48) &&
  ((s.drop 53).take 2).all isHexB

/-- Outcome of the propagator extraction over the `KVListExtractor`. -/
inductive XOut where
  | ok (parent : Option SpanCtx)
  | crash
deriving DecidableEq, Repr

/-- Modelled from the spec (§6): `propagator.extract(&KVListExtractor(..))`.
The SDK reads `traceparent` (and on success `tracestate`) through
`KVListExtractor::get`, whose `unwrap` panics when the key is absent; an
unparsable `traceparent` yields a context with no active span. -/
def extractContext (details : KVMap) : XOut :=
  match kvGetStr details traceparentB with
  | none => .crash
  | some none => .ok none
  | some (some tp) =>
    if validTraceparent tp then
      match kvGetStr details tracestateB with
      | none => .crash
      | some st =>
        .ok (some { traceId := hexToNat ((tp.drop 3).take 32)
                  , spanId := hexToNat ((tp.drop 36).take 16)
                  , flags := hexToNat ((tp.drop 53).take 2)
                  , state := st.getD [] })
    else .ok none

/-- Modelled from the spec (§6): `tracer.start` / `start_with_context` — a
fresh span handle from the counter; the new context keeps the parent's trace
id (or uses a fresh one when unparented) and is sampled. -/
def startSpan (parent : Option SpanCtx) (st : OtelSt) : SpanCtx × SpanRec × OtelSt :=
  let sid := st.nextSpan
  let ctx : SpanCtx :=
    match parent with
    | some p => { traceId := p.traceId, spanId := sid, flags := 1, state := p.state }
    | none => { traceId := sid, spanId := sid, flags := 1, state := [] }
  (ctx, { sid := sid, attrs := [] }, { st with nextSpan := sid + 1 })

/-- `track_span` (otel.rs:101-105): `db.insert(key, ..)` under the lock. -/
def trackSpan (st : OtelSt) (key : List Nat) (rec : SpanRec) : OtelSt :=
  { st with db := hmInsert st.db key rec }

/-- `end_span` (otel.rs:107-116): remove the entry and call `.end()` on it;
when absent only a warning is logged. -/
def endSpan (st : OtelSt) (key : List Nat) : OtelSt :=
  match st.db.find? (fun p => p.1 == key) with
  | some (_, rec) =>
    { st with db := st.db.filter (fun p => p.1 != key), ended := st.ended ++ [rec] }
  | none => st

/-- `enrich_span_with_tags` (otel.rs:138-144): set every extracted tag as an
attribute on the span. -/
def enrichSpan (rec : SpanRec) (details : KVMap) : SpanRec :=
  { rec with attrs := rec.attrs ++ extractTags details unknownTagExtra }

/-- `ActionInjector::apply_context` (otel.rs:229-243): when the span context
is valid, push two REQUEST-scope `SET_VAR` actions, `traceparent` formatted
as `"{version:02x}-{trace_id:032x}-{span_id:016x}-{flags:02x}"` with
version 0 and the SAMPLED bit of the flags, and `tracestate` with the
context's state header. -/
def applyContext (actions : List Action) (ctx : SpanCtx) : List Action :=
  if ctx.traceId ≠ 0 && ctx.spanId ≠ 0 then
    actions ++
      [.SetVar .REQUEST traceparentB
        (.STRING (natHexPad 2 0 ++ [45] ++ natHexPad 32 ctx.traceId ++ [45] ++
          natHexPad 16 ctx.spanId ++ [45] ++ natHexPad 2 (ctx.flags &&& 1))),
       .SetVar .REQUEST tracestateB (.STRING ctx.state)]
  else actions

/-- Outcome of `handle_notify`: the produced actions (the source's
`Ok(Some(actions))`) and the updated state, or a panic. -/
inductive NOut where
  | ok (actions : List Action) (st : OtelSt)
  | crash
deriving DecidableEq, Repr

/-- The `for (message, details) in messages` loop of `handle_notify`
(otel.rs:37-99).  `key_of` runs for EVERY message, before the name is even
inspected, and panics when the body has no `id` entry.  The SDK calls
(`tracer`, propagator) follow the spec-modelled helpers above. -/
def handleNotifyAux (header : FrameHeader) :
    MsgMap → OtelSt → List Action → NOut
  | [], st, actions => .ok actions st
  | (message, details) :: rest, st, actions =>
    match keyOf header details with
    | none => .crash
    | some key =>
      if eqIgnoreCase message tcpReqB then
        let r := startSpan none st
        let rec1 := enrichSpan r.2.1 details
        handleNotifyAux header rest (trackSpan r.2.2 key rec1) actions
      else if eqIgnoreCase message httpReqB then
        let st1 := endSpan st key
        match extractContext details with
        | .crash => .crash
        | .ok parent =>
          let r := startSpan parent st1
          let rec1 := enrichSpan r.2.1 details
          let actions1 := applyContext actions r.1
          handleNotifyAux header rest (trackSpan r.2.2 key rec1) actions1
      else if eqIgnoreCase message httpRespB then
        handleNotifyAux header rest (endSpan st key) actions
      else
        handleNotifyAux header rest st actions

/-- `handle_notify` (otel.rs:37-99); the source returns `Ok(Some(actions))`. -/
def handleNotify (header : FrameHeader) (messages : MsgMap) (st : OtelSt) : NOut :=
  handleNotifyAux header messages st []

/-! ### Connection loop (`src/main.rs`) -/

/-- The AGENT_HELLO content built by `handle_frame` (main.rs:80-86):
`version = "2.0"`, `max-frame-size = UINT32(16380)`,
`capabilities = "pipelining"`, in insertion order. -/
def agentHelloContent : KVMap :=
  [(versionKeyB, .STRING versionValB),
   (maxFrameSizeKeyB, .UINT32 16380),
   (capabilitiesKeyB, .STRING pipeliningB)]

/-- `handle_frame` (main.rs:70-114), parameterised like the source over the
notify handler (`NotifyHandler`).  HAPROXY_HELLO gets an AGENT_HELLO reply,
NOTIFY goes to the handler (`None` becoming an empty-action ACK),
HAPROXY_DISCONNECT raises `Error::Disconnect`, anything else
`Error::NotSupported`.  The handler is modelled as a pure function of the
header and messages (the registry state does not influence which error class
`handle_frame` returns). -/
def handleFrame (notifyH : FrameHeader → MsgMap → Except Error (Option Frame)) :
    Frame → Except Error Frame
  | .HAProxyHello header _ =>
    .ok (.AgentHello (header.replyHeader .AGENT_HELLO) agentHelloContent)
  | .Notify header messages =>
    match notifyH header messages with
    | .ok (some responseFrame) => .ok responseFrame
    | .ok none => .ok (.Ack (header.replyHeader .ACK) [])
    | .error e => .error e
  | .HAProxyDisconnect _ _ => .error .disconnect
  | _ => .error .notSupported

/-- Outcome of the per-connection `process` loop (main.rs:116-141) on a
finite prefix of read results. -/
inductive LoopOutcome where
  | awaiting
  | returned
  | crashed
deriving DecidableEq, Repr

/-- Modelled from the spec (§4.5): one result of
`connection.read_frame().await` — `Ok(None)` on clean close, `Ok(Some(f))`
on a complete well-formed frame, `Err(InvalidFrame ..)` on a
complete-but-malformed frame, `Err(IO ..)` on socket failure
(`connection.rs` is not under `src/`). -/
abbrev ReadResult := Except Error (Option Frame)

/-- The `loop` of `process` (main.rs:116-141) consuming a list of read
results: `read_frame().await.unwrap()` panics on ANY `Err` (codec or I/O);
`Ok(None)` falls through the `if let Some` and loops; a frame goes to
`handle_frame`, whose `Ok` response is written (writes modelled as
succeeding), whose `Disconnect` returns from the task, and whose other
errors are logged (`log::error!`) before continuing. -/
def processLoop (notifyH : FrameHeader → MsgMap → Except Error (Option Frame)) :
    List ReadResult → LoopOutcome
  | [] => .awaiting
  | r :: rest =>
    match r with
    | .error _ => .crashed
    | .ok none => processLoop notifyH rest
    | .ok (some f) =>
      match handleFrame notifyH f with
      | .ok _response => processLoop notifyH rest
      | .error .disconnect => .returned
      | .error _ => processLoop notifyH rest

/-! ### Evaluation lemmas for the KV-list loop -/

lemma parseKVListAux_nil (body : KVMap) : parseKVListAux body [] = .ok body [] := by
  rw [parseKVListAux.eq_def]
  simp

lemma parseKVListAux_step (body : KVMap) (src name : List Nat) (rest : List Nat)
    (value : TypedData) (rest2 : List Nat) (hne : src ≠ [])
    (h1 : parseString src = .ok name rest)
    (h2 : parseTypedData rest = .ok value rest2) :
    parseKVListAux body src = parseKVListAux (hmInsert body name value) rest2 := by
  rw [parseKVListAux.eq_def, if_neg hne, h1]
  dsimp only
  rw [h2]

/-! ### Structure lemmas for `extract_tags` -/

/-- The commit of a possibly open tag (`if let Some(tag) = tag_name { .. }`). -/
def commitTag (props : PropList) (tagName : Option (List Nat)) (s : List Nat) : PropList :=
  match tagName with
  | some t => props ++ [(t, s)]
  | none => props

lemma extractTagsAux_nil_open (u : PropList → List Nat → TypedData → PropList)
    (props : PropList) (t s : List Nat) :
    extractTagsAux u [] props (some t) s = props ++ [(t, s)] := rfl

/-- Processing a run of empty-keyed pairs while a tag is open appends their
stringified values to the accumulator, in list order. -/
lemma extractTagsAux_pieces (u : PropList → List Nat → TypedData → PropList) :
    ∀ (vs : List TypedData) (rest : List (List Nat × TypedData)) props t s,
    extractTagsAux u (vs.map (fun v => (([] : List Nat), v)) ++ rest) props (some t) s =
      extractTagsAux u rest props (some t) (vs.foldl (fun a v => a ++ stringify v) s) := by
  intro vs
  induction vs with
  | nil => intro rest props t s; simp
  | cons v vs ih =>
    intro rest props t s
    simp only [List.map_cons, List.cons_append, List.foldl_cons]
    rw [extractTagsAux.eq_def]
    dsimp only
    rw [if_neg (by simp)]
    exact ih rest props t (s ++ stringify v)

/-- A `("tag", t)` pair commits any open tag and opens `stringify t` with an
empty accumulator (the entry accumulator being empty in both branches of the
source, since the closed-tag branch leaves `s` untouched). -/
lemma extractTagsAux_open_tag (u : PropList → List Nat → TypedData → PropList)
    (props : PropList) (tag0 : Option (List Nat)) (t : TypedData)
    (rest : List (List Nat × TypedData)) :
    extractTagsAux u ((tagKeyB, t) :: rest) props tag0 [] =
      extractTagsAux u rest (commitTag props tag0 []) (some (stringify t)) [] := by
  cases tag0 with
  | some tg =>
    rw [extractTagsAux.eq_def]
    dsimp only [commitTag]
    rw [if_pos (by simp [tagKeyB]), if_pos rfl]
  | none =>
    rw [extractTagsAux.eq_def]
    dsimp only [commitTag]
    rw [if_pos (by simp [tagKeyB]), if_pos rfl]

/-- Reaching a non-empty key with a tag open is the same as first committing
the tag and continuing with no open tag. -/
lemma extractTagsAux_commit (u : PropList → List Nat → TypedData → PropList)
    (props : PropList) (t sAcc : List Nat) (k : List Nat) (v : TypedData)
    (rest : List (List Nat × TypedData)) (hk : k ≠ []) :
    extractTagsAux u ((k, v) :: rest) props (some t) sAcc =
      extractTagsAux u ((k, v) :: rest) (props ++ [(t, sAcc)]) none [] := by
  by_cases hkt : k = tagKeyB
  · subst hkt
    rw [extractTagsAux.eq_def]
    dsimp only
    rw [if_pos hk, if_pos rfl]
    conv_rhs => rw [extractTagsAux.eq_def]
    dsimp only
    rw [if_pos hk, if_pos rfl]
  · rw [extractTagsAux.eq_def]
    dsimp only
    rw [if_pos hk, if_neg hkt]
    conv_rhs => rw [extractTagsAux.eq_def]
    dsimp only
    rw [if_pos hk, if_neg hkt]

/-! ## Claim theorems -/

/-- C1: Varint round-trip — for every unsigned 64-bit value `v`,
`parse_varint (write_varint v)` returns `v` consuming exactly the bytes
`write_varint` produced (whatever follows them is left untouched);
`write_varint` emits at most 10 bytes, and exactly 1 byte when `v < 240`. -/
theorem C1_varint_roundtrip (v : Nat) (hv : v < 2 ^ 64) :
    (∀ rest, parseVarint (writeVarint v ++ rest) = .ok v rest) ∧
    (writeVarint v).length ≤ 10 ∧
    (v < 240 → (writeVarint v).length = 1) :=
  ⟨fun rest => parseVarint_writeVarint v hv rest,
   writeVarint_length_le v hv,
   fun h => writeVarint_length_one v h⟩

/-- Witness for C1 at `v = 300` (multi-byte) and `v = 5` (single byte). -/
theorem C1_varint_roundtrip_witness :
    ((300 : Nat) < 2 ^ 64 ∧
      parseVarint (writeVarint 300 ++ [7]) = .ok 300 [7] ∧
      (writeVarint 300).length ≤ 10) ∧
    ((5 : Nat) < 2 ^ 64 ∧ (5 : Nat) < 240 ∧ (writeVarint 5).length = 1) :=
  ⟨⟨by decide, (C1_varint_roundtrip 300 (by decide)).1 [7],
    (C1_varint_roundtrip 300 (by decide)).2.1⟩,
   ⟨by decide, by decide, (C1_varint_roundtrip 5 (by decide)).2.2 (by decide)⟩⟩

/-- Decoding an `INT32` body whose varint value exceeds `i32::MAX` fails the
`try_from` width check. -/
lemma parseTypedData_int32_overflow (r : Nat) (hr : r < 2 ^ 64)
    (h31 : ¬ r < 2 ^ 31) (rest : List Nat) :
    parseTypedData (2 :: (writeVarint r ++ rest)) =
      .err (.numberConversionError .INT32 r) := by
  simp only [parseTypedData, typedDataTypeOfU8,
    parseVarint_writeVarint r hr rest]
  rw [if_neg h31]

/-- C2 counterexample: the claim includes negative `INT32` values, but
encoding `INT32(-1)` writes the 64-bit two's complement `2^64 - 1` as a
varint and decoding rejects it with `NumberConversionError` — the round trip
fails. -/
theorem C2_typed_data_counterexample :
    parseTypedData (writeTypedData (.INT32 (-1))).1 ≠ .ok (.INT32 (-1)) [] ∧
    parseTypedData (writeTypedData (.INT32 (-1))).1 =
      .err (.numberConversionError .INT32 (2 ^ 64 - 1)) := by
  have hu : u64OfInt (-1) = 2 ^ 64 - 1 := by unfold u64OfInt; omega
  have h1 : (writeTypedData (.INT32 (-1))).1 = 2 :: (writeVarint (2 ^ 64 - 1) ++ []) := by
    rw [List.append_nil]
    simp [writeTypedData, hu]
  have h2 := parseTypedData_int32_overflow (2 ^ 64 - 1) (by omega) (by norm_num) []
  constructor
  · rw [h1, h2]; simp
  · rw [h1, h2]

/-- C2 amended: typed-data round-trip for every well-formed non-`BINARY`
value that is not an `INT32` holding a negative number: the encoder succeeds
(no error) and the decoder returns the value, consuming exactly the encoded
bytes. -/
theorem C2_typed_data_roundtrip_amended (x : TypedData)
    (hwf : wfTypedData x = true)
    (hbin : ∀ bs, x ≠ .BINARY bs)
    (hneg : ∀ v, x = .INT32 v → 0 ≤ v) :
    (∀ rest, parseTypedData ((writeTypedData x).1 ++ rest) = .ok x rest) ∧
    (writeTypedData x).2 = none := by
  refine ⟨fun rest => parseTypedData_writeTypedData x hwf hbin hneg rest, ?_⟩
  cases x
  case BINARY bs => exact absurd rfl (hbin bs)
  all_goals rfl

/-- Witness for the amended C2 at `x = STRING "hi"`. -/
theorem C2_typed_data_roundtrip_amended_witness :
    wfTypedData (.STRING [104, 105]) = true ∧
    parseTypedData ((writeTypedData (.STRING [104, 105])).1 ++ [9]) =
      .ok (.STRING [104, 105]) [9] ∧
    (writeTypedData (.STRING [104, 105])).2 = none :=
  ⟨by decide,
   (C2_typed_data_roundtrip_amended (.STRING [104, 105]) (by decide)
      (fun bs h => nomatch h) (fun v h => nomatch h)).1 [9],
   (C2_typed_data_roundtrip_amended (.STRING [104, 105]) (by decide)
      (fun bs h => nomatch h) (fun v h => nomatch h)).2⟩

/-- C3: `parse_kv_list` fills a `HashMap`, so duplicate names collapse —
the wire bytes for the two pairs `("a", BOOL false), ("a", BOOL true)`
parse to a single-entry map holding only the last value, not to the
two-pair ordered sequence the claim requires. -/
theorem C3_kv_list_collapse :
    parseKVList [1, 97, 1, 1, 97, 17] = .ok [([97], .BOOL true)] [] := by
  rw [parseKVList,
    parseKVListAux_step [] _ [97] [1, 1, 97, 17] (.BOOL false) [1, 97, 17]
      (by decide) (by decide) (by decide),
    parseKVListAux_step _ _ [97] [17] (.BOOL true) []
      (by decide) (by decide) (by decide),
    parseKVListAux_nil]
  decide

/-- C4: `Frame::write_to` emits no `u32` length prefix (header bytes come
first), so `Frame::parse` applied to its output misreads the first four
bytes as the length and fails with `InvalidCursor` — already on the minimal
ACK frame of the repository's own round-trip test. -/
theorem C4_frame_write_parse_mismatch :
    Frame.writeTo (.Ack ⟨.ACK, 1, 2, 1⟩ []) = .ok [103, 0, 0, 0, 1, 2, 1] ∧
    Frame.parse [103, 0, 0, 0, 1, 2, 1] = .err (.invalidCursor 1728053248 3) := by
  decide

/-- C5: `Frame::parse` error contract — when the bytes after the length
prefix do not number exactly `length`, it fails with
`InvalidCursor{expected, remaining}`; and on an exact-length buffer whose
well-formed header has FIN unset it fails with
`FragmentedModeNotSupported`. -/
theorem C5_frame_parse_error_contract :
    (∀ b0 b1 b2 b3 (rest : List Nat), beU32 b0 b1 b2 b3 ≠ rest.length →
      Frame.parse (b0 :: b1 :: b2 :: b3 :: rest) =
        .err (.invalidCursor (beU32 b0 b1 b2 b3) rest.length)) ∧
    (∀ b0 b1 b2 b3 (rest : List Nat) hdr (rest2 : List Nat),
      beU32 b0 b1 b2 b3 = rest.length →
      parseFrameHeader rest = .ok hdr rest2 →
      isFin hdr.flags = false →
      Frame.parse (b0 :: b1 :: b2 :: b3 :: rest) =
        .err .fragmentedModeNotSupported) := by
  constructor
  · intro b0 b1 b2 b3 rest h
    rw [Frame.parse.eq_def]
    dsimp only
    rw [if_pos h]
  · intro b0 b1 b2 b3 rest hdr rest2 hlen hhdr hfin
    rw [Frame.parse.eq_def]
    dsimp only
    rw [if_neg (fun hx => hx hlen), hhdr]
    dsimp only
    rw [if_pos (by simp [hfin])]

/-- Witness for C5: a 4-byte buffer announcing length 5 yields
`InvalidCursor 5 0`; an exact-length HAPROXY_HELLO frame with flags 0 yields
`FragmentedModeNotSupported`. -/
theorem C5_frame_parse_error_contract_witness :
    (beU32 0 0 0 5 ≠ ([] : List Nat).length ∧
      Frame.parse [0, 0, 0, 5] = .err (.invalidCursor (beU32 0 0 0 5) 0)) ∧
    (beU32 0 0 0 7 = [1, 0, 0, 0, 0, 0, 0].length ∧
      parseFrameHeader [1, 0, 0, 0, 0, 0, 0] =
        .ok { ftype := .HAPROXY_HELLO, flags := 0, streamId := 0, frameId := 0 } [] ∧
      isFin 0 = false ∧
      Frame.parse [0, 0, 0, 7, 1, 0, 0, 0, 0, 0, 0] =
        .err .fragmentedModeNotSupported) :=
  ⟨⟨by decide, C5_frame_parse_error_contract.1 0 0 0 5 [] (by decide)⟩,
   ⟨by decide, by decide, by decide,
    C5_frame_parse_error_contract.2 0 0 0 7 [1, 0, 0, 0, 0, 0, 0]
      { ftype := .HAPROXY_HELLO, flags := 0, streamId := 0, frameId := 0 } []
      (by decide) (by decide) (by decide)⟩⟩

/-- C6: `parse_string` on a valid length prefix followed by invalid UTF-8
(`0xFF`) panics — the source's `.map_err(.. Utf8Error ..).unwrap()` unwraps
the freshly mapped error — instead of returning `Utf8Error`; a short cursor
does return `InsufficientBytes` as claimed. -/
theorem C6_parse_string_utf8_crash :
    parseString [1, 255] = .crash ∧
    parseString [2, 97] = .err .insufficientBytes := by decide

/-- C7 counterexample: a read result carrying a codec error
(`InvalidFrame`) makes the `process` loop panic on
`read_frame().await.unwrap()` — the subsequent well-formed HELLO frame is
never processed, contradicting log-and-continue. -/
theorem C7_codec_error_crashes_counterexample :
    processLoop (fun _ _ => .ok none)
      [.error (.invalidFrame .insufficientBytes),
       .ok (some (.HAProxyHello ⟨.HAPROXY_HELLO, 1, 0, 0⟩ []))] = .crashed := by
  decide

/-- C7 amended: errors surfaced by `handle_frame` other than `Disconnect`
are logged and the loop continues; `HAPROXY_DISCONNECT` returns from the
task; but ANY error returned by `read_frame` — codec (`InvalidFrame`) as
well as I/O — terminates the task via the `unwrap` panic. -/
theorem C7_process_loop_amended :
    (∀ (notifyH : FrameHeader → MsgMap → Except Error (Option Frame))
        (rest : List ReadResult) (e : Error),
      processLoop notifyH (.error e :: rest) = .crashed) ∧
    (∀ (notifyH : FrameHeader → MsgMap → Except Error (Option Frame))
        (rest : List ReadResult) hdr (content : KVMap),
      processLoop notifyH (.ok (some (.HAProxyDisconnect hdr content)) :: rest) =
        .returned) ∧
    (∀ (notifyH : FrameHeader → MsgMap → Except Error (Option Frame))
        (rest : List ReadResult) (f : Frame) (e : Error),
      handleFrame notifyH f = .error e → e ≠ .disconnect →
      processLoop notifyH (.ok (some f) :: rest) = processLoop notifyH rest) ∧
    (∀ (notifyH : FrameHeader → MsgMap → Except Error (Option Frame))
        (rest : List ReadResult) (f : Frame) (resp : Frame),
      handleFrame notifyH f = .ok resp →
      processLoop notifyH (.ok (some f) :: rest) = processLoop notifyH rest) := by
  refine ⟨fun _ _ _ => rfl, fun _ _ _ _ => rfl, ?_, ?_⟩
  · intro nh rest f e h hne
    cases e
    case disconnect => exact absurd rfl hne
    all_goals simp only [processLoop, h]
  · intro nh rest f resp h
    simp only [processLoop, h]

/-- Witness for the amended C7: an inbound `AgentDisconnect` frame (handled
with `Error::NotSupported`) is logged and skipped, an inbound
`HAProxyHello` produces a reply and the loop continues, `HAProxyDisconnect`
returns, and a codec-error read crashes. -/
theorem C7_process_loop_amended_witness :
    (processLoop (fun _ _ => .ok none)
      [.error (.invalidFrame .insufficientBytes)] = .crashed) ∧
    (processLoop (fun _ _ => .ok none)
      [.ok (some (.HAProxyDisconnect ⟨.HAPROXY_DISCONNECT, 1, 0, 0⟩ []))] = .returned) ∧
    (handleFrame (fun _ _ => .ok none) (.AgentDisconnect ⟨.AGENT_DISCONNECT, 1, 0, 0⟩) =
        .error .notSupported ∧
      Error.notSupported ≠ Error.disconnect ∧
      processLoop (fun _ _ => .ok none)
        [.ok (some (.AgentDisconnect ⟨.AGENT_DISCONNECT, 1, 0, 0⟩))] =
        processLoop (fun _ _ => .ok none) []) ∧
    (handleFrame (fun _ _ => .ok none) (.HAProxyHello ⟨.HAPROXY_HELLO, 1, 0, 0⟩ []) =
        .ok (.AgentHello (FrameHeader.replyHeader ⟨.HAPROXY_HELLO, 1, 0, 0⟩ .AGENT_HELLO)
          agentHelloContent) ∧
      processLoop (fun _ _ => .ok none)
        [.ok (some (.HAProxyHello ⟨.HAPROXY_HELLO, 1, 0, 0⟩ []))] =
        processLoop (fun _ _ => .ok none) []) :=
  ⟨C7_process_loop_amended.1 (fun _ _ => .ok none) [] (.invalidFrame .insufficientBytes),
   C7_process_loop_amended.2.1 (fun _ _ => .ok none) [] ⟨.HAPROXY_DISCONNECT, 1, 0, 0⟩ [],
   ⟨rfl, by simp,
    C7_process_loop_amended.2.2.1 (fun _ _ => .ok none) []
      (.AgentDisconnect ⟨.AGENT_DISCONNECT, 1, 0, 0⟩) .notSupported rfl
      (by simp)⟩,
   ⟨rfl,
    C7_process_loop_amended.2.2.2 (fun _ _ => .ok none) []
      (.HAProxyHello ⟨.HAPROXY_HELLO, 1, 0, 0⟩ [])
      (.AgentHello (FrameHeader.replyHeader ⟨.HAPROXY_HELLO, 1, 0, 0⟩ .AGENT_HELLO)
        agentHelloContent)
      rfl⟩⟩

/-- C8: a NOTIFY message with no `id` entry in its body makes the dispatcher
panic, not skip — `key_of` is computed for every message before the name is
inspected, and its `find(..).unwrap()` panics on the empty body (`keyOf`
returning `none` models the panic). -/
theorem C8_missing_id_crash :
    keyOf ⟨.NOTIFY, 1, 7, 3⟩ [] = none ∧
    handleNotify ⟨.NOTIFY, 1, 7, 3⟩ [(tcpReqB, [])] ⟨[], 1, []⟩ = .crash := by
  decide

/-- C9: tag-extraction order — a `tag` entry commits any previously open tag,
then collects the stringified values of the following empty-keyed pairs as
its value, concatenated in their original list order; the next non-empty key
(or the end of the list) commits it, and with no empty-keyed pair in between
the committed value is empty (`vs = []` makes the `foldl` the empty
string). -/
theorem C9_tag_extraction_order (u : PropList → List Nat → TypedData → PropList)
    (props : PropList) (tag0 : Option (List Nat)) (t : TypedData)
    (vs : List TypedData) (k : List Nat) (v : TypedData)
    (rest : List (List Nat × TypedData)) (hk : k ≠ []) :
    (extractTagsAux u
        ((tagKeyB, t) :: (vs.map (fun w => (([] : List Nat), w)) ++ (k, v) :: rest))
        props tag0 [] =
      extractTagsAux u ((k, v) :: rest)
        (commitTag props tag0 [] ++
          [(stringify t, vs.foldl (fun a w => a ++ stringify w) [])])
        none []) ∧
    (extractTagsAux u ((tagKeyB, t) :: vs.map (fun w => (([] : List Nat), w)))
        props tag0 [] =
      commitTag props tag0 [] ++
        [(stringify t, vs.foldl (fun a w => a ++ stringify w) [])]) := by
  constructor
  · rw [extractTagsAux_open_tag, extractTagsAux_pieces,
      extractTagsAux_commit _ _ _ _ _ _ _ hk]
  · rw [extractTagsAux_open_tag,
      show vs.map (fun w => (([] : List Nat), w)) =
        vs.map (fun w => (([] : List Nat), w)) ++ [] from (List.append_nil _).symm,
      extractTagsAux_pieces, extractTagsAux_nil_open]

/-- Witness for C9: tag `x` with parts `a`, `b` followed by key `f`. -/
theorem C9_tag_extraction_order_witness :
    (([102] : List Nat) ≠ []) ∧
    (extractTagsAux (fun p _ _ => p)
        ((tagKeyB, .STRING [120]) ::
          (([TypedData.STRING [97], TypedData.STRING [98]].map
              (fun w => (([] : List Nat), w))) ++ ([102], TypedData.NULL) :: []))
        [] none [] =
      extractTagsAux (fun p _ _ => p) (([102], TypedData.NULL) :: [])
        (commitTag [] none [] ++
          [(stringify (.STRING [120]),
            [TypedData.STRING [97], TypedData.STRING [98]].foldl
              (fun a w => a ++ stringify w) [])])
        none []) :=
  ⟨by decide,
   (C9_tag_extraction_order (fun p _ _ => p) [] none (.STRING [120])
      [TypedData.STRING [97], TypedData.STRING [98]] [102] TypedData.NULL []
      (by decide)).1⟩

/-- C10: encoding a `BINARY` typed value appends the tag byte `0x09` to the
destination buffer and only then returns `Err(NotSupported)`: on this error
path the buffer is mutated, never left unchanged. -/
theorem C10_write_binary_mutates (dst bs : List Nat) :
    writeTypedDataInto dst (.BINARY bs) = (dst ++ [9], some .notSupported) ∧
    dst ++ [9] ≠ dst := by
  refine ⟨rfl, fun h => ?_⟩
  have := congrArg List.length h
  simp at this

end Spoa
